import Mathlib

/-!
Verification of the build-descriptor extractor, config-document merger and
template generator of `mbed_vscode_tools/mbed_vscode_tools.py`.

The Python code is shallowly embedded: JSON dictionaries holding the
`c_cpp_properties.json` document become Lean structures carrying exactly the
fields the code reads or writes, the imperative scanning loop over
`build.ninja` becomes a structurally recursive function threading the same
accumulators and done-flags, and exceptions become `Except` values whose
error constructors record the kind of error raised.  File I/O is modelled by
passing file contents (a list of lines, or `Option` for a possibly missing
file) as an explicit argument.
-/

/-- Modelled from the spec: the `consts` module is not part of the sources.
The base-entry name; the `configure` docstring in the source instructs the
user to create an "Mbed" entry, and `generate` hard-codes the same name. -/
def VSCODE_CONFENTRY_BASE : String := "Mbed"

/-- Modelled from the spec: the `consts` module is not part of the sources.
The generated-entry name; the `configure` docstring in the source names the
automatically generated entry "MbedAuto". -/
def VSCODE_CONFENTRY_AUTO : String := "MbedAuto"

/-- The whitespace characters stripped by Python's `str.strip()`: space,
tab, newline, carriage return, vertical tab and form feed. -/
def isPySpace (c : Char) : Bool :=
  (c == ' ') || (c == '\t') || (c == '\n') || (c == '\r') ||
    (c == '\x0b') || (c == '\x0c')

/-- Python's `str.strip()`: remove leading and trailing whitespace.
Implemented structurally over the character list so that concrete inputs
evaluate by kernel reduction. -/
def pyStrip (s : String) : String :=
  ⟨((s.data.dropWhile isPySpace).reverse.dropWhile isPySpace).reverse⟩

/-- Python's `str.startswith(pre)`. -/
def pyStartsWith (s pre : String) : Bool :=
  pre.data.isPrefixOf s.data

/-- Worker for Python's `str.split(sep)` with a non-empty separator: scan
left to right; `skip` counts separator characters still to be consumed after
a match.  On a match the current field is closed and a new one starts after
the separator. -/
def pySplitGo (sep : List Char) : List Char → Nat → List (List Char)
  | [], _ => [[]]
  | _ :: rest, skip + 1 => pySplitGo sep rest skip
  | c :: rest, 0 =>
    if sep.isPrefixOf (c :: rest) ∧ sep ≠ [] then
      [] :: pySplitGo sep rest (sep.length - 1)
    else
      match pySplitGo sep rest 0 with
      | [] => [[c]]
      | hd :: tl => (c :: hd) :: tl

/-- Python's `str.split(sep)` for a non-empty separator string: the list of
fields between non-overlapping occurrences of `sep`, scanned from the
left. -/
def pySplit (s sep : String) : List String :=
  (pySplitGo sep.data s.data 0).map (fun l => ⟨l⟩)

/-- Error kinds raised by the tool.  The Python code raises `Exception` with
long human-readable messages (the message text is elided here; only the kind
of failure and the site that raises it are modelled) and `next` on an empty
filter raises `StopIteration`. -/
inductive ToolError where
  /-- `configure` lines 161-164: no "Mbed" entry in the document. -/
  | missingBaseEntry
  /-- `configure` lines 165-168: more than one "Mbed" entry. -/
  | duplicateBaseEntry
  /-- A required file does not exist (e.g. `update` lines 247-250). -/
  | notFound
  /-- `update` line 297: `next(filter(...))` on a document with no "Mbed"
  entry raises `StopIteration`. -/
  | stopIteration
  deriving Repr, DecidableEq

/-- One entry of the `configurations` sequence of `c_cpp_properties.json`.
`includePath` and `defines` are optional because the merge code tests
`'includePath' not in auto_entry`; the remaining fields are the passthrough
fields written by `generate` and copied verbatim by the merge's deep copy. -/
structure ConfigEntry where
  name : String
  includePath : Option (List String) := none
  defines : Option (List String) := none
  compilerPath : Option String := none
  cStandard : Option String := none
  cppStandard : Option String := none
  intelliSenseMode : Option String := none
  deriving Repr, DecidableEq

/-- The `c_cpp_properties.json` document: top-level `env` map,
`configurations` sequence and schema `version`. -/
structure ConfigDocument where
  env : List (String × String) := []
  configurations : List ConfigEntry := []
  version : Nat := 4
  deriving Repr, DecidableEq

/-- `configure` lines 157-168: count the entries whose name equals the
base-entry name; fewer than one raises, more than one raises, exactly one
passes. -/
def configureValidate (conf : ConfigDocument) : Except ToolError Unit :=
  let n := (conf.configurations.filter
    (fun entry => entry.name == VSCODE_CONFENTRY_BASE)).length
  if n < 1 then .error .missingBaseEntry
  else if n > 1 then .error .duplicateBaseEntry
  else .ok ()

/-- `update` lines 296-299: `next(filter(lambda entry: entry['name'] ==
consts.VSCODE_CONFENTRY_BASE, vscode_conf['configurations']))` — the first
entry named "Mbed", raising `StopIteration` when there is none. -/
def getBaseEntry (conf : ConfigDocument) : Except ToolError ConfigEntry :=
  match conf.configurations.find?
      (fun entry => entry.name == VSCODE_CONFENTRY_BASE) with
  | some entry => .ok entry
  | none => .error .stopIteration

/-- `update` lines 301-313: deep-copy the base entry, rename the copy to the
generated-entry name, initialize `includePath`/`defines` to `[]` when the key
is absent, then `extend` with the extracted sequences. -/
def buildAutoEntry (base : ConfigEntry)
    (includes defines : List String) : ConfigEntry :=
  { base with
    name := VSCODE_CONFENTRY_AUTO,
    includePath := some (base.includePath.getD [] ++ includes),
    defines := some (base.defines.getD [] ++ defines) }

/-- `update` lines 296-320: locate the base entry, build the new auto entry,
drop every entry named with the generated-entry name, append the new entry,
and assign the result to the document's `configurations` key (the only key
assigned before serialization). -/
def mergeUpdate (conf : ConfigDocument)
    (includes defines : List String) : Except ToolError ConfigDocument :=
  match getBaseEntry conf with
  | .error e => .error e
  | .ok base =>
    let autoEntry := buildAutoEntry base includes defines
    .ok { conf with configurations :=
      (conf.configurations.filter
        (fun entry => entry.name != VSCODE_CONFENTRY_AUTO)) ++ [autoEntry] }

/-- `generate` lines 79-92: the template document literal — one entry named
"Mbed" with empty `includePath`/`defines`, the passthrough fields set from
the inputs, `intelliSenseMode` fixed to "gcc-arm", empty `env`, version 4. -/
def generateConf (cStandard cppStandard compilerPath : String) :
    ConfigDocument :=
  { env := [],
    configurations := [{
      name := "Mbed",
      includePath := some [],
      defines := some [],
      compilerPath := some compilerPath,
      cStandard := some cStandard,
      cppStandard := some cppStandard,
      intelliSenseMode := some "gcc-arm" }],
    version := 4 }

/-- Errors of the `generate` command before document construction. -/
inductive GenError where
  /-- Lines 65-71: `which arm-none-eabi-gcc` exited non-zero. -/
  | whichFailed
  /-- Line 76: the `else` branch reads the local variable
  `compiler_executable`, which is assigned only in the `if` branch; Python
  raises `UnboundLocalError` there. -/
  | unboundLocal
  deriving Repr, DecidableEq

/-- `generate` lines 60-92: resolve the compiler path and build the template
document.  `whichOut` models the result of the external
`which arm-none-eabi-gcc` call (`.ok stdout` for exit code 0, `.error` for a
non-zero exit).  When `compilerPath` is `none` the code uses the trimmed
stdout of `which`; when a compiler path is given explicitly, line 76
evaluates an f-string containing `compiler_executable`, a local variable no
branch reaching that line has assigned, so the command raises before
constructing the document. -/
def generateRun (compilerPath : Option String)
    (whichOut : Except Unit String)
    (cStandard cppStandard : String) : Except GenError ConfigDocument :=
  match compilerPath with
  | none =>
    match whichOut with
    | .error _ => .error .whichFailed
    | .ok out => .ok (generateConf cStandard cppStandard (pyStrip out))
  | some _ => .error .unboundLocal

/-- `if define not in defines: defines.append(define)` — append unless
already present. -/
def dedupAppend (acc : List String) (item : String) : List String :=
  if item ∈ acc then acc else acc ++ [item]

/-- `update` lines 264-267: split the (already stripped) line on `-D`, drop
the part before the first marker, strip each token, append if new. -/
def parseDefinesLine (acc : List String) (line : String) : List String :=
  ((pySplit line "-D").tail.map pyStrip).foldl dedupAppend acc

/-- Python's `s[1:-1]`: remove one character from each end (empty result for
strings of length at most one, as in Python). -/
def stripEnds (s : String) : String :=
  ⟨(s.data.drop 1).dropLast⟩

/-- `update` lines 272-275: split the (already stripped) line on `-I`, drop
the part before the first marker, strip each token and remove the
surrounding quote characters (`include.strip()[1:-1]`), append if new. -/
def parseIncludesLine (acc : List String) (line : String) : List String :=
  ((pySplit line "-I").tail.map (fun t => stripEnds (pyStrip t))).foldl
    dedupAppend acc

/-- `update` lines 254-280: the scanning loop.  Each line is stripped; the
first line starting with `DEFINES = ` feeds the defines accumulator and sets
`defines_done`, the first line starting with `INCLUDES = ` feeds the
includes accumulator and sets `includes_done`; the loop breaks once both
flags are set. -/
def scanLoop : List String → List String → Bool → List String → Bool →
    List String × List String
  | [], defines, _, includes, _ => (defines, includes)
  | line :: rest, defines, definesDone, includes, includesDone =>
    let stripped := pyStrip line
    let defines' :=
      if !definesDone && pyStartsWith stripped "DEFINES = " then
        parseDefinesLine defines stripped
      else defines
    let definesDone' :=
      if !definesDone && pyStartsWith stripped "DEFINES = " then true
      else definesDone
    let includes' :=
      if !includesDone && pyStartsWith stripped "INCLUDES = " then
        parseIncludesLine includes stripped
      else includes
    let includesDone' :=
      if !includesDone && pyStartsWith stripped "INCLUDES = " then true
      else includesDone
    if definesDone' && includesDone' then (defines', includes')
    else scanLoop rest defines' definesDone' includes' includesDone'

/-- `update` lines 254-280 entry point: scan all lines of `build.ninja`
starting from empty accumulators and cleared flags. -/
def parseNinja (lines : List String) : List String × List String :=
  scanLoop lines [] false [] false

/-- `update` line 283: `str(cmake_build_dir / '_deps' / 'greentea-client-src'
/ 'include')` — the hard-coded greentea-client include directory under the
build directory (`pathlib` joins components with `/`). -/
def greenteaInclude (cmakeBuildDir : String) : String :=
  cmakeBuildDir ++ "/_deps/greentea-client-src/include"

/-- `update` lines 254-283: parse the descriptor, then unconditionally append
the greentea-client include path to the includes sequence (bypassing the
dedup check of the loop).  Returns `(defines, includes)`. -/
def extractBuildInfo (cmakeBuildDir : String) (lines : List String) :
    List String × List String :=
  let scanned := parseNinja lines
  (scanned.1, scanned.2 ++ [greenteaInclude cmakeBuildDir])

/-- `update` lines 243-283: the descriptor file itself, modelled as
`Option (List String)` — `none` when `build.ninja` does not exist, in which
case lines 247-250 raise a not-found error before any parsing. -/
def updateExtract (cmakeBuildDir : String)
    (ninjaFile : Option (List String)) :
    Except ToolError (List String × List String) :=
  match ninjaFile with
  | none => .error .notFound
  | some lines => .ok (extractBuildInfo cmakeBuildDir lines)

/-- Specification-side description of the dedup policy used by the scanning
loop: keep the first occurrence of each token, discard every later
occurrence. -/
def firstDedupGo : Nat → List String → List String
  | _, [] => []
  | 0, l => l
  | fuel + 1, x :: xs => x :: firstDedupGo fuel (xs.filter (fun y => y != x))

/-- Specification-side first-occurrence deduplication: keep the first
occurrence of each item, discard every later one.  The fuel (the list's
length, which only shrinks under `filter`) makes the recursion structural. -/
def firstDedup (l : List String) : List String :=
  firstDedupGo l.length l

/-- Specification-side description of the defines result: the tokens after
each `-D` marker of the first `DEFINES = ` line, whitespace-trimmed, with
first occurrences kept. -/
def specDefines (lines : List String) : List String :=
  match lines.find? (fun l => pyStartsWith (pyStrip l) "DEFINES = ") with
  | none => []
  | some l => firstDedup ((pySplit (pyStrip l) "-D").tail.map pyStrip)

/-- Specification-side description of the scanned includes: the tokens after
each `-I` marker of the first `INCLUDES = ` line, trimmed and with one
surrounding character removed from each end, first occurrences kept. -/
def specIncludes (lines : List String) : List String :=
  match lines.find? (fun l => pyStartsWith (pyStrip l) "INCLUDES = ") with
  | none => []
  | some l =>
    firstDedup ((pySplit (pyStrip l) "-I").tail.map (fun t => stripEnds (pyStrip t)))

/-- What the defines accumulator of the scanning loop becomes: unchanged when
the done-flag is already set, otherwise fed with the first line whose
stripped content starts with the defines marker (if any). -/
def scanDefs (lines : List String) (defines : List String)
    (definesDone : Bool) : List String :=
  if definesDone then defines
  else
    match lines.find? (fun l => pyStartsWith (pyStrip l) "DEFINES = ") with
    | none => defines
    | some l => parseDefinesLine defines (pyStrip l)

/-- What the includes accumulator of the scanning loop becomes: unchanged
when the done-flag is already set, otherwise fed with the first line whose
stripped content starts with the includes marker (if any). -/
def scanIncs (lines : List String) (includes : List String)
    (includesDone : Bool) : List String :=
  if includesDone then includes
  else
    match lines.find? (fun l => pyStartsWith (pyStrip l) "INCLUDES = ") with
    | none => includes
    | some l => parseIncludesLine includes (pyStrip l)

/-- Observer for the generated entry of a document: the first entry carrying
the generated-entry name. -/
def getAutoEntry (conf : ConfigDocument) : Option ConfigEntry :=
  conf.configurations.find? (fun entry => entry.name == VSCODE_CONFENTRY_AUTO)

/-- A concrete base entry, as `generate` would create it. -/
def mbedEntry : ConfigEntry :=
  { name := "Mbed",
    compilerPath := some "/usr/bin/arm-none-eabi-gcc",
    cStandard := some "c17", cppStandard := some "c++17",
    intelliSenseMode := some "gcc-arm" }

/-- A concrete user-authored entry unrelated to the tool. -/
def fooEntry : ConfigEntry := { name := "Foo" }

/-- A concrete document with exactly one base entry. -/
def docOneBase : ConfigDocument :=
  { env := [("myVar", "/opt")],
    configurations := [mbedEntry, fooEntry],
    version := 4 }

/-- A concrete document with two base entries. -/
def docTwoBase : ConfigDocument :=
  { env := [], configurations := [mbedEntry, mbedEntry], version := 4 }

/-- A concrete document with one base entry and a duplicated entry name
unrelated to the tool. -/
def docDupFoo : ConfigDocument :=
  { env := [], configurations := [mbedEntry, fooEntry, fooEntry],
    version := 4 }

/-- The result of merging `docOneBase` with includes `["i1"]` and defines
`["d1"]`. -/
def docOneBaseMerged : ConfigDocument :=
  { env := [("myVar", "/opt")],
    configurations := [mbedEntry, fooEntry,
      buildAutoEntry mbedEntry ["i1"] ["d1"]],
    version := 4 }

/-- The result of merging `docDupFoo` with empty extracted sequences. -/
def docDupFooMerged : ConfigDocument :=
  { env := [],
    configurations := [mbedEntry, fooEntry, fooEntry,
      buildAutoEntry mbedEntry [] []],
    version := 4 }

/-- The fuel argument of `firstDedupGo` is irrelevant once it covers the
list's length. -/
lemma firstDedupGo_congr : ∀ (f₁ f₂ : Nat) (l : List String),
    l.length ≤ f₁ → l.length ≤ f₂ →
    firstDedupGo f₁ l = firstDedupGo f₂ l := by
  intro f₁
  induction f₁ with
  | zero =>
    intro f₂ l h₁ _
    have hl : l = [] := List.length_eq_zero.mp (Nat.le_zero.mp h₁)
    subst hl
    cases f₂ <;> rfl
  | succ f ih =>
    intro f₂ l h₁ h₂
    cases l with
    | nil => cases f₂ <;> rfl
    | cons x xs =>
      cases f₂ with
      | zero => simp at h₂
      | succ g =>
        simp only [firstDedupGo]
        have hxs₁ : xs.length ≤ f := by
          simp only [List.length_cons] at h₁; omega
        have hxs₂ : xs.length ≤ g := by
          simp only [List.length_cons] at h₂; omega
        have hfl := List.length_filter_le (fun y => y != x) xs
        rw [ih g (xs.filter (fun y => y != x)) (by omega) (by omega)]

/-- Unfolding equation of `firstDedup` on a cons cell. -/
lemma firstDedup_cons (x : String) (xs : List String) :
    firstDedup (x :: xs) =
      x :: firstDedup (xs.filter (fun y => y != x)) := by
  rw [firstDedup, firstDedup]
  have h1 : (x :: xs).length = xs.length + 1 := rfl
  rw [h1]
  simp only [firstDedupGo]
  have hfl := List.length_filter_le (fun y => y != x) xs
  rw [firstDedupGo_congr xs.length (xs.filter (fun y => y != x)).length
    (xs.filter (fun y => y != x)) (by omega) (by omega)]

/-- The dedup-append fold equals first-occurrence deduplication of the items
not already present in the accumulator, appended to the accumulator. -/
lemma foldl_dedupAppend (l : List String) : ∀ acc : List String,
    l.foldl dedupAppend acc =
      acc ++ firstDedup (l.filter (fun y => !decide (y ∈ acc))) := by
  induction l with
  | nil => intro acc; simp [firstDedup, firstDedupGo]
  | cons x xs ih =>
    intro acc
    by_cases hx : x ∈ acc
    · have hstep : dedupAppend acc x = acc := by simp [dedupAppend, hx]
      simp only [List.foldl_cons, hstep, ih, List.filter_cons]
      simp [hx]
    · have hstep : dedupAppend acc x = acc ++ [x] := by
        simp [dedupAppend, hx]
      have hfilter : (x :: xs).filter (fun y => !decide (y ∈ acc)) =
          x :: xs.filter (fun y => !decide (y ∈ acc)) := by simp [hx]
      have hf2 : xs.filter (fun y => !decide (y ∈ acc ++ [x])) =
          (xs.filter (fun y => !decide (y ∈ acc))).filter
            (fun y => y != x) := by
        rw [List.filter_filter]
        apply List.filter_congr
        intro y _
        by_cases h1 : y ∈ acc <;> by_cases h2 : y = x <;>
          simp [h1, h2, List.mem_append]
      rw [List.foldl_cons, hstep, ih, hfilter, firstDedup_cons, ← hf2]
      simp [List.append_assoc]

/-- Feeding the defines-line parser from an empty accumulator yields exactly
the first-occurrence dedup of the trimmed tokens. -/
lemma parseDefinesLine_nil (line : String) :
    parseDefinesLine [] line =
      firstDedup ((pySplit line "-D").tail.map pyStrip) := by
  rw [parseDefinesLine, foldl_dedupAppend]
  simp

/-- Feeding the includes-line parser from an empty accumulator yields exactly
the first-occurrence dedup of the trimmed, quote-stripped tokens. -/
lemma parseIncludesLine_nil (line : String) :
    parseIncludesLine [] line =
      firstDedup ((pySplit line "-I").tail.map (fun t => stripEnds (pyStrip t))) := by
  rw [parseIncludesLine, foldl_dedupAppend]
  simp

/-- The scanning loop is characterized by the first marker lines alone: its
two accumulators end up exactly as `scanDefs` and `scanIncs` describe,
including the early break once both done-flags are set. -/
lemma scanLoop_spec : ∀ (lines defines : List String) (definesDone : Bool)
    (includes : List String) (includesDone : Bool),
    scanLoop lines defines definesDone includes includesDone =
      (scanDefs lines defines definesDone,
       scanIncs lines includes includesDone) := by
  intro lines
  induction lines with
  | nil =>
    intro defines definesDone includes includesDone
    cases definesDone <;> cases includesDone <;>
      simp [scanLoop, scanDefs, scanIncs]
  | cons l rest ih =>
    intro defines definesDone includes includesDone
    cases definesDone <;> cases includesDone <;>
      by_cases hd : pyStartsWith (pyStrip l) "DEFINES = " <;>
      by_cases hi : pyStartsWith (pyStrip l) "INCLUDES = " <;>
      simp [scanLoop, scanDefs, scanIncs, hd, hi, ih, List.find?_cons]

/-- The descriptor parse equals its specification-side description. -/
lemma parseNinja_eq_spec (lines : List String) :
    parseNinja lines = (specDefines lines, specIncludes lines) := by
  rw [parseNinja, scanLoop_spec]
  refine Prod.ext ?_ ?_
  · simp only [scanDefs, specDefines, Bool.false_eq_true, if_false]
    cases h : lines.find? (fun l => pyStartsWith (pyStrip l) "DEFINES = ") <;>
      simp [parseDefinesLine_nil]
  · simp only [scanIncs, specIncludes, Bool.false_eq_true, if_false]
    cases h : lines.find? (fun l => pyStartsWith (pyStrip l) "INCLUDES = ") <;>
      simp [parseIncludesLine_nil]

/-- C1 counterexample: a document holding two base entries, submitted
directly to the merge step of the update command, does not fail — the merge
succeeds, silently using the first base entry. -/
theorem c1_counterexample :
    (docTwoBase.configurations.filter
        (fun entry => entry.name == VSCODE_CONFENTRY_BASE)).length = 2 ∧
    (mergeUpdate docTwoBase [] []).isOk = true := by
  exact ⟨by decide, by decide⟩

/-- C1 (amended): the base-entry validation of the configure step fails when
zero entries carry the base-entry name, fails when two or more do, and
succeeds with exactly one, the errors being reported to the caller; the
merge step of the update command itself fails only when zero entries match
and succeeds whenever at least one does (silently using the first). -/
theorem c1_base_entry_validation (conf : ConfigDocument)
    (includes defines : List String) :
    ((conf.configurations.filter
        (fun entry => entry.name == VSCODE_CONFENTRY_BASE)).length = 0 →
      configureValidate conf = .error .missingBaseEntry ∧
      mergeUpdate conf includes defines = .error .stopIteration) ∧
    ((conf.configurations.filter
        (fun entry => entry.name == VSCODE_CONFENTRY_BASE)).length > 1 →
      configureValidate conf = .error .duplicateBaseEntry) ∧
    ((conf.configurations.filter
        (fun entry => entry.name == VSCODE_CONFENTRY_BASE)).length = 1 →
      configureValidate conf = .ok ()) ∧
    ((conf.configurations.filter
        (fun entry => entry.name == VSCODE_CONFENTRY_BASE)).length ≥ 1 →
      (mergeUpdate conf includes defines).isOk = true) := by
  refine ⟨fun h0 => ⟨?_, ?_⟩, fun h2 => ?_, fun h1 => ?_, fun hge => ?_⟩
  · simp [configureValidate, h0]
  · have hnil : conf.configurations.filter
        (fun entry => entry.name == VSCODE_CONFENTRY_BASE) = [] :=
      List.length_eq_zero.mp h0
    have hfind : conf.configurations.find?
        (fun entry => entry.name == VSCODE_CONFENTRY_BASE) = none := by
      rw [List.find?_eq_none]
      intro x hx
      exact List.filter_eq_nil_iff.mp hnil x hx
    simp [mergeUpdate, getBaseEntry, hfind]
  · simp only [configureValidate]
    rw [if_neg (by omega), if_pos h2]
  · simp only [configureValidate]
    rw [if_neg (by omega), if_neg (by omega)]
  · have hne : conf.configurations.filter
        (fun entry => entry.name == VSCODE_CONFENTRY_BASE) ≠ [] := by
      intro hcon
      rw [hcon] at hge
      simp at hge
    obtain ⟨x, hx⟩ := List.exists_mem_of_ne_nil _ hne
    have hmem := List.mem_filter.mp hx
    have hsome : (conf.configurations.find?
        (fun entry => entry.name == VSCODE_CONFENTRY_BASE)).isSome :=
      List.find?_isSome.mpr ⟨x, hmem.1, hmem.2⟩
    cases hfind : conf.configurations.find?
        (fun entry => entry.name == VSCODE_CONFENTRY_BASE) with
    | none => rw [hfind] at hsome; simp at hsome
    | some base =>
      simp [mergeUpdate, getBaseEntry, hfind, Except.isOk, Except.toBool]

/-- C1 witness: on a concrete document with exactly one base entry the
validation succeeds and the merge succeeds. -/
theorem c1_base_entry_validation_witness :
    configureValidate docOneBase = .ok () ∧
    (mergeUpdate docOneBase ["i1"] ["d1"]).isOk = true :=
  ⟨(c1_base_entry_validation docOneBase ["i1"] ["d1"]).2.2.1 (by decide),
   (c1_base_entry_validation docOneBase ["i1"] ["d1"]).2.2.2 (by decide)⟩

/-- C2: whenever the descriptor holds an `INCLUDES = ` line, the extracted
includes sequence is the first-occurrence dedup of the trimmed,
quote-stripped tokens after each `-I` marker of the first such line, with
the greentea-client include path under the build directory appended last —
by an unconditional append outside the dedup check, so the equation holds
even when that path already occurs among the scanned tokens. -/
theorem c2_includes_extraction (cmakeBuildDir : String) (lines : List String)
    (line : String)
    (h : lines.find? (fun s => pyStartsWith (pyStrip s) "INCLUDES = ") = some line) :
    (extractBuildInfo cmakeBuildDir lines).2 =
      firstDedup ((pySplit (pyStrip line) "-I").tail.map
        (fun t => stripEnds (pyStrip t))) ++ [greenteaInclude cmakeBuildDir] := by
  simp only [extractBuildInfo, parseNinja_eq_spec, specIncludes, h]

/-- C2 witness: a descriptor whose only scanned include path is already the
greentea-client path still gets that path appended once more, yielding a
duplicate. -/
theorem c2_includes_extraction_witness :
    (extractBuildInfo "/b"
        ["INCLUDES = -I\"/b/_deps/greentea-client-src/include\""]).2 =
      ["/b/_deps/greentea-client-src/include",
       "/b/_deps/greentea-client-src/include"] := by
  rw [c2_includes_extraction "/b"
    ["INCLUDES = -I\"/b/_deps/greentea-client-src/include\""]
    "INCLUDES = -I\"/b/_deps/greentea-client-src/include\"" rfl]
  rfl

/-- C3: whenever the descriptor holds a `DEFINES = ` line, the extracted
defines sequence is the first-occurrence dedup of the whitespace-trimmed
tokens after each `-D` marker of the first such line; each token is trimmed,
so the result is independent of whitespace padding around the tokens. -/
theorem c3_defines_extraction (cmakeBuildDir : String) (lines : List String)
    (line : String)
    (h : lines.find? (fun s => pyStartsWith (pyStrip s) "DEFINES = ") = some line) :
    (extractBuildInfo cmakeBuildDir lines).1 =
      firstDedup ((pySplit (pyStrip line) "-D").tail.map pyStrip) := by
  simp only [extractBuildInfo, parseNinja_eq_spec, specDefines, h]

/-- C3 witness: a padded, duplicated defines line extracts to the deduped
trimmed tokens. -/
theorem c3_defines_extraction_witness :
    (extractBuildInfo "/b" ["  DEFINES = -DFOO   -DBAR -DFOO"]).1 =
      ["FOO", "BAR"] := by
  rw [c3_defines_extraction "/b" ["  DEFINES = -DFOO   -DBAR -DFOO"]
    "  DEFINES = -DFOO   -DBAR -DFOO" rfl]
  rfl

/-- C4: only the first line whose trimmed content begins with the defines
marker and the first line beginning with the includes marker contribute to
the parse result, and once both markers have been seen the remaining lines
are irrelevant: appending any further lines changes nothing. -/
theorem c4_first_match_scan (lines rest : List String) :
    parseNinja lines = (specDefines lines, specIncludes lines) ∧
    ((∃ l ∈ lines, pyStartsWith (pyStrip l) "DEFINES = ") →
      (∃ l ∈ lines, pyStartsWith (pyStrip l) "INCLUDES = ") →
      parseNinja (lines ++ rest) = parseNinja lines) := by
  refine ⟨parseNinja_eq_spec lines, fun hd hi => ?_⟩
  rw [parseNinja_eq_spec, parseNinja_eq_spec]
  obtain ⟨ld, hldmem, hldp⟩ := hd
  obtain ⟨li, hlimem, hlip⟩ := hi
  have hd' : (lines.find? (fun l => pyStartsWith (pyStrip l) "DEFINES = ")).isSome :=
    List.find?_isSome.mpr ⟨ld, hldmem, hldp⟩
  have hi' : (lines.find? (fun l => pyStartsWith (pyStrip l) "INCLUDES = ")).isSome :=
    List.find?_isSome.mpr ⟨li, hlimem, hlip⟩
  obtain ⟨d, hdly⟩ := Option.isSome_iff_exists.mp hd'
  obtain ⟨i, hily⟩ := Option.isSome_iff_exists.mp hi'
  have e1 : specDefines (lines ++ rest) = specDefines lines := by
    simp only [specDefines, List.find?_append, hdly, Option.or_some]
  have e2 : specIncludes (lines ++ rest) = specIncludes lines := by
    simp only [specIncludes, List.find?_append, hily, Option.or_some]
  rw [e1, e2]

/-- C4 witness: a descriptor with a second pair of marker lines parses
exactly as its two-line first half. -/
theorem c4_first_match_scan_witness :
    parseNinja (["DEFINES = -DA", "INCLUDES = -I\"/x\""] ++
        ["DEFINES = -DZ", "INCLUDES = -I\"/y\""]) =
      parseNinja ["DEFINES = -DA", "INCLUDES = -I\"/x\""] :=
  (c4_first_match_scan ["DEFINES = -DA", "INCLUDES = -I\"/x\""]
      ["DEFINES = -DZ", "INCLUDES = -I\"/y\""]).2 (by decide) (by decide)

/-- Inversion of a successful merge: it found a base entry and returned the
document with only the `configurations` key reassigned. -/
lemma mergeUpdate_ok_inv (conf conf' : ConfigDocument)
    (includes defines : List String)
    (h : mergeUpdate conf includes defines = .ok conf') :
    ∃ base, conf.configurations.find?
        (fun entry => entry.name == VSCODE_CONFENTRY_BASE) = some base ∧
      conf' = { conf with configurations :=
        (conf.configurations.filter
          (fun entry => entry.name != VSCODE_CONFENTRY_AUTO))
          ++ [buildAutoEntry base includes defines] } := by
  cases hfind : conf.configurations.find?
      (fun entry => entry.name == VSCODE_CONFENTRY_BASE) with
  | none => simp [mergeUpdate, getBaseEntry, hfind] at h
  | some base =>
    refine ⟨base, rfl, ?_⟩
    simp only [mergeUpdate, getBaseEntry, hfind, Except.ok.injEq] at h
    exact h.symm

/-- Dropping the auto-named entries does not change which entry is found as
the base entry (the base-entry name differs from the auto-entry name). -/
lemma find?_base_filter (l : List ConfigEntry) :
    (l.filter (fun e => e.name != VSCODE_CONFENTRY_AUTO)).find?
        (fun e => e.name == VSCODE_CONFENTRY_BASE) =
      l.find? (fun e => e.name == VSCODE_CONFENTRY_BASE) := by
  induction l with
  | nil => rfl
  | cons e l ih =>
    by_cases ha : e.name = VSCODE_CONFENTRY_AUTO
    · have hfaB : (e.name != VSCODE_CONFENTRY_AUTO) = false := by
        rw [ha]; decide
      have hpeB : (e.name == VSCODE_CONFENTRY_BASE) = false := by
        rw [ha]; decide
      simp [List.filter_cons, List.find?_cons, hfaB, hpeB, ih]
    · have hfaB : (e.name != VSCODE_CONFENTRY_AUTO) = true :=
        bne_iff_ne.mpr ha
      by_cases hb : e.name = VSCODE_CONFENTRY_BASE
      · have hpeB : (e.name == VSCODE_CONFENTRY_BASE) = true := by
          rw [hb]; decide
        simp [List.filter_cons, List.find?_cons, hfaB, hpeB]
      · have hpeB : (e.name == VSCODE_CONFENTRY_BASE) = false :=
          beq_eq_false_iff_ne.mpr hb
        simp [List.filter_cons, List.find?_cons, hfaB, hpeB, ih]

/-- In a merged entry sequence the auto entry found is exactly the appended
one. -/
lemma find?_auto_merged (l : List ConfigEntry) (autoEntry : ConfigEntry)
    (hname : autoEntry.name = VSCODE_CONFENTRY_AUTO) :
    (l.filter (fun e => e.name != VSCODE_CONFENTRY_AUTO)
        ++ [autoEntry]).find? (fun e => e.name == VSCODE_CONFENTRY_AUTO) =
      some autoEntry := by
  rw [List.find?_append]
  have h1 : (l.filter (fun e => e.name != VSCODE_CONFENTRY_AUTO)).find?
      (fun e => e.name == VSCODE_CONFENTRY_AUTO) = none := by
    rw [List.find?_eq_none]
    intro x hx
    have hx2 := (List.mem_filter.mp hx).2
    simp only [bne] at hx2
    simp only [Bool.not_eq_true'] at hx2
    simp [hx2]
  rw [h1]
  simp [hname]

/-- C5: the merge is idempotent on the generated entry — merging a merged
document again, with the same extracted build info, produces the same
generated entry, because the generated entry is rebuilt by deep-copying the
(unchanged) base entry each run rather than mutated incrementally. -/
theorem c5_merge_idempotent (conf conf₁ conf₂ : ConfigDocument)
    (includes defines : List String)
    (h1 : mergeUpdate conf includes defines = .ok conf₁)
    (h2 : mergeUpdate conf₁ includes defines = .ok conf₂) :
    getAutoEntry conf₂ = getAutoEntry conf₁ ∧
    (getAutoEntry conf₁).isSome = true := by
  obtain ⟨base, hfind, hconf₁⟩ :=
    mergeUpdate_ok_inv conf conf₁ includes defines h1
  obtain ⟨base₁, hfind₁, hconf₂⟩ :=
    mergeUpdate_ok_inv conf₁ conf₂ includes defines h2
  have hname : (buildAutoEntry base includes defines).name =
      VSCODE_CONFENTRY_AUTO := rfl
  have hbase₁ : base₁ = base := by
    rw [hconf₁] at hfind₁
    simp only at hfind₁
    rw [List.find?_append, find?_base_filter, hfind] at hfind₁
    simp only [Option.or_some] at hfind₁
    exact (Option.some.injEq _ _).mp hfind₁.symm
  subst hbase₁
  constructor
  · rw [hconf₂, hconf₁]
    simp only [getAutoEntry]
    rw [find?_auto_merged _ _ hname, find?_auto_merged _ _ hname]
  · rw [hconf₁]
    simp only [getAutoEntry]
    rw [find?_auto_merged _ _ hname]
    rfl

/-- C5 witness: merging the concrete one-base document twice yields the same
generated entry, which exists. -/
theorem c5_merge_idempotent_witness :
    getAutoEntry docOneBaseMerged = getAutoEntry docOneBaseMerged ∧
    (getAutoEntry docOneBaseMerged).isSome = true :=
  c5_merge_idempotent docOneBase docOneBaseMerged docOneBaseMerged
    ["i1"] ["d1"] rfl rfl

/-- C6: the merge keeps every non-auto-named entry unchanged and in its
original relative order (they are exactly the filtered input sequence),
removes every prior auto-named entry, and appends the single newly built
generated entry, which carries the generated-entry name. -/
theorem c6_merge_frame (conf conf' : ConfigDocument)
    (includes defines : List String) (base : ConfigEntry)
    (hbase : conf.configurations.find?
      (fun entry => entry.name == VSCODE_CONFENTRY_BASE) = some base)
    (h : mergeUpdate conf includes defines = .ok conf') :
    conf'.configurations =
      conf.configurations.filter
        (fun entry => entry.name != VSCODE_CONFENTRY_AUTO)
        ++ [buildAutoEntry base includes defines] ∧
    (buildAutoEntry base includes defines).name = VSCODE_CONFENTRY_AUTO := by
  obtain ⟨base', hfind', hconf⟩ :=
    mergeUpdate_ok_inv conf conf' includes defines h
  rw [hbase] at hfind'
  injection hfind' with hbb
  subst hbb
  rw [hconf]
  exact ⟨rfl, rfl⟩

/-- C6 witness: the concrete merged document is the filtered input plus the
new generated entry. -/
theorem c6_merge_frame_witness :
    docOneBaseMerged.configurations =
      docOneBase.configurations.filter
        (fun entry => entry.name != VSCODE_CONFENTRY_AUTO)
        ++ [buildAutoEntry mbedEntry ["i1"] ["d1"]] ∧
    (buildAutoEntry mbedEntry ["i1"] ["d1"]).name = VSCODE_CONFENTRY_AUTO :=
  c6_merge_frame docOneBase docOneBaseMerged ["i1"] ["d1"] mbedEntry rfl rfl

/-- C7 counterexample: merging a document whose input entries already share
a name ("Foo" twice) succeeds and saves a document in which two entries
still share a name — entry names are not unique at save time. -/
theorem c7_counterexample :
    mergeUpdate docDupFoo [] [] = .ok docDupFooMerged ∧
    ¬ (docDupFooMerged.configurations.map ConfigEntry.name).Nodup := by
  exact ⟨rfl, by decide⟩

/-- C7 (amended): the merge enforces uniqueness only for the generated-entry
name — exactly one entry of the saved document carries it — while the
occurrence count of every other name is passed through unchanged, so name
duplicates already present among the other input entries persist. -/
theorem c7_unique_auto_name (conf conf' : ConfigDocument)
    (includes defines : List String)
    (h : mergeUpdate conf includes defines = .ok conf') :
    conf'.configurations.countP
      (fun e => e.name == VSCODE_CONFENTRY_AUTO) = 1 ∧
    ∀ n : String, n ≠ VSCODE_CONFENTRY_AUTO →
      conf'.configurations.countP (fun e => e.name == n) =
        conf.configurations.countP (fun e => e.name == n) := by
  obtain ⟨base, hfind, hconf⟩ :=
    mergeUpdate_ok_inv conf conf' includes defines h
  subst hconf
  constructor
  · simp only [List.countP_append]
    have h1 : (conf.configurations.filter
        (fun e => e.name != VSCODE_CONFENTRY_AUTO)).countP
        (fun e => e.name == VSCODE_CONFENTRY_AUTO) = 0 := by
      rw [List.countP_eq_zero]
      intro a ha
      have ha2 := (List.mem_filter.mp ha).2
      simp only [bne, Bool.not_eq_true'] at ha2
      simp [ha2]
    rw [h1]
    have h2 : (buildAutoEntry base includes defines).name =
        VSCODE_CONFENTRY_AUTO := rfl
    simp [List.countP_cons, h2]
  · intro n hn
    simp only [List.countP_append]
    have h2 : (conf.configurations.filter
        (fun e => e.name != VSCODE_CONFENTRY_AUTO)).countP
        (fun e => e.name == n) =
        conf.configurations.countP (fun e => e.name == n) := by
      rw [List.countP_filter]
      apply List.countP_congr
      intro a _
      by_cases hb : (a.name == n) = true
      · have haeq : a.name = n := eq_of_beq hb
        have hbne : (a.name != VSCODE_CONFENTRY_AUTO) = true := by
          rw [haeq]
          exact bne_iff_ne.mpr hn
        simp [hb, hbne]
      · have hb' : (a.name == n) = false := by
          simp only [Bool.not_eq_true] at hb
          exact hb
        simp [hb']
    have h3 : ([buildAutoEntry base includes defines].countP
        (fun e => e.name == n)) = 0 := by
      have hname : (buildAutoEntry base includes defines).name =
          VSCODE_CONFENTRY_AUTO := rfl
      have : ((buildAutoEntry base includes defines).name == n) = false := by
        rw [hname]
        exact beq_eq_false_iff_ne.mpr (Ne.symm hn)
      simp [List.countP_cons, this]
    rw [h2, h3]
    omega

/-- C7 witness: the concrete merged document carries the generated name once
and the count of "Foo"-named entries is preserved. -/
theorem c7_unique_auto_name_witness :
    docOneBaseMerged.configurations.countP
      (fun e => e.name == VSCODE_CONFENTRY_AUTO) = 1 ∧
    docOneBaseMerged.configurations.countP (fun e => e.name == "Foo") =
      docOneBase.configurations.countP (fun e => e.name == "Foo") :=
  ⟨(c7_unique_auto_name docOneBase docOneBaseMerged ["i1"] ["d1"] rfl).1,
   (c7_unique_auto_name docOneBase docOneBaseMerged ["i1"] ["d1"] rfl).2
     "Foo" (by decide)⟩

/-- C8 counterexample: a descriptor that exists but holds neither marker
line yields empty defines but a NON-empty includes sequence — the
unconditionally appended greentea-client path is always present, so the
claim that both sequences are empty fails. -/
theorem c8_counterexample :
    (extractBuildInfo "/b" ["build foo: bar"]).1 = [] ∧
    (extractBuildInfo "/b" ["build foo: bar"]).2 ≠ [] ∧
    (extractBuildInfo "/b" ["build foo: bar"]).2 = [greenteaInclude "/b"] := by
  refine ⟨rfl, ?_, rfl⟩
  decide

/-- C8 (amended): the extractor fails with a not-found error when the
descriptor file does not exist; when the file exists but holds neither
marker line, the scan contributes nothing and the result is empty defines
plus an includes sequence holding exactly the one unconditionally appended
greentea-client path — not an error. -/
theorem c8_missing_descriptor (cmakeBuildDir : String) (lines : List String)
    (hd : lines.find?
      (fun l => pyStartsWith (pyStrip l) "DEFINES = ") = none)
    (hi : lines.find?
      (fun l => pyStartsWith (pyStrip l) "INCLUDES = ") = none) :
    updateExtract cmakeBuildDir none = .error .notFound ∧
    updateExtract cmakeBuildDir (some lines) =
      .ok ([], [greenteaInclude cmakeBuildDir]) := by
  refine ⟨rfl, ?_⟩
  simp [updateExtract, extractBuildInfo, parseNinja_eq_spec, specDefines,
    specIncludes, hd, hi]

/-- C8 witness: concrete missing file and concrete markerless descriptor. -/
theorem c8_missing_descriptor_witness :
    updateExtract "/b" none = .error .notFound ∧
    updateExtract "/b" (some ["build foo: bar"]) =
      .ok ([], [greenteaInclude "/b"]) :=
  c8_missing_descriptor "/b" ["build foo: bar"] rfl rfl

/-- C9: the template construction produces a document with exactly one
entry, named with the base-entry name, whose `includePath` and `defines`
are empty and whose passthrough fields are set from the inputs, with empty
`env` and version 4; the default-compiler path of the command is pure
construction over the trimmed `which` output — but when an explicit
compiler path is supplied, the command raises an `UnboundLocalError` before
constructing anything (line 76 reads the unassigned local
`compiler_executable`), contradicting the no-error claim. -/
theorem c9_generate_template :
    (∀ cStd cppStd path : String,
      generateConf cStd cppStd path =
        { env := [],
          configurations := [{
            name := VSCODE_CONFENTRY_BASE,
            includePath := some [],
            defines := some [],
            compilerPath := some path,
            cStandard := some cStd,
            cppStandard := some cppStd,
            intelliSenseMode := some "gcc-arm" }],
          version := 4 }) ∧
    generateRun none (.ok "/usr/bin/arm-none-eabi-gcc\n") "c17" "c++17" =
      .ok (generateConf "c17" "c++17" "/usr/bin/arm-none-eabi-gcc") ∧
    generateRun (some "/opt/gcc/bin/arm-none-eabi-gcc") (.ok "") "c17"
      "c++17" = .error .unboundLocal := by
  refine ⟨fun cStd cppStd path => rfl, ?_, rfl⟩
  rfl

/-- C10: a successful merge writes back the document with only the
`configurations` key reassigned — the `env` map and the `version` field are
unchanged. -/
theorem c10_env_version_preserved (conf conf' : ConfigDocument)
    (includes defines : List String)
    (h : mergeUpdate conf includes defines = .ok conf') :
    conf'.env = conf.env ∧ conf'.version = conf.version := by
  obtain ⟨base, hfind, hconf⟩ :=
    mergeUpdate_ok_inv conf conf' includes defines h
  rw [hconf]
  exact ⟨rfl, rfl⟩

/-- C10 witness: the concrete merged document keeps env and version. -/
theorem c10_env_version_preserved_witness :
    docOneBaseMerged.env = docOneBase.env ∧
    docOneBaseMerged.version = docOneBase.version :=
  c10_env_version_preserved docOneBase docOneBaseMerged ["i1"] ["d1"] rfl
